import Mathlib

/-!
# Verification of the Intact_Stability calculation engine

Shallow embedding, in Lean 4, of the numerical core of the
`Intact_Stability` Django application (weight aggregation, equilibrium
solver, GZ-curve criteria, longitudinal-strength buoyancy correction,
crane lift / SWL calculator), together with theorems settling the frozen
claims about its specification.

Modelling conventions:
* Python floats are modelled as exact numbers: `ℚ` where the code is pure
  rational arithmetic (so statements are decidable), `ℝ` where the code
  calls transcendental functions (`math.atan`, `math.acos`, `math.sqrt`,
  `π`-based angle conversion).
* Python's `round(x, n)` performs banker's (half-even) rounding; it is
  modelled exactly by `pyRound` below.  (CPython rounds the binary double
  nearest to `x`; on the exact values arising in the claims no half-way
  tie occurs, so the exact model agrees.)
* Python `ZeroDivisionError` / `UnboundLocalError` are modelled by
  error-aware variants of the affected functions (`Option`/`Except`
  results); the pure variants model the code on inputs where no fault
  occurs.
* `scipy` interpolators over the hydrostatic tables are modelled as
  abstract functions `(trim, weight) ↦ value` (one per hydrostatic
  parameter): the claims under study are about how `optimize_trim`
  *uses* the interpolators, not about interpolation itself.
-/

/-! ## Numeric helpers -/

/-- Banker's (half-even) rounding to an integer, the rounding used by
Python's builtin `round`. -/
def roundHalfEven {α : Type} [LinearOrderedField α] [FloorRing α] (x : α) : ℤ :=
  let f := ⌊x⌋
  let frac := x - (f : α)
  if frac < 1 / 2 then f
  else if 1 / 2 < frac then f + 1
  else if Even f then f else f + 1

/-- Python's `round(x, n)` (round to `n` decimal digits, ties to even). -/
def pyRound {α : Type} [LinearOrderedField α] [FloorRing α] (x : α) (n : ℕ) : α :=
  (roundHalfEven (x * 10 ^ n) : α) / 10 ^ n

/-! ## Weight aggregation (`helpers.py`) -/

/-- One fixed-weight item, keys `weight`/`lcg`/`tcg`/`vcg` of the dicts
consumed by `get_fixed_weight` (helpers.py lines 199-233). -/
structure FixedWeight where
  weight : ℚ
  lcg : ℚ
  tcg : ℚ
  vcg : ℚ
deriving DecidableEq

/-- `get_fixed_weight` (helpers.py lines 199-233): accumulate total weight
and the weight moments; divide the moments by the total only when the
total is non-zero; weight is reported rounded to 4 digits. -/
def get_fixed_weight (weight_data : List FixedWeight) : ℚ × ℚ × ℚ × ℚ :=
  let weight := (weight_data.map (fun fw => fw.weight)).sum
  let lcg := (weight_data.map (fun fw => fw.weight * fw.lcg)).sum
  let tcg := (weight_data.map (fun fw => fw.weight * fw.tcg)).sum
  let vcg := (weight_data.map (fun fw => fw.weight * fw.vcg)).sum
  if weight ≠ 0 then
    (pyRound weight 4, lcg / weight, tcg / weight, vcg / weight)
  else
    (pyRound weight 4, lcg, tcg, vcg)

/-- One tank after interpolation of its tank curve at the requested fill
percent: the `tank_dict` values built in `get_tank_weight`
(helpers.py lines 27-45). -/
structure TankVal where
  volume : ℚ
  weight : ℚ
  lcg : ℚ
  tcg : ℚ
  vcg : ℚ
  fsm : ℚ
deriving DecidableEq

/-- The aggregation half of `get_tank_weight` (helpers.py lines 47-60):
given the per-tank interpolated values, sum the weights; if the sum is 0
return the explicit zero tuple, otherwise weighted-average LCG/TCG/VCG
and sum FSM. -/
def get_tank_weight_totals (tank_vals : List TankVal) : ℚ × ℚ × ℚ × ℚ × ℚ :=
  let weight := (tank_vals.map (fun t => t.weight)).sum
  if weight = 0 then (0, 0, 0, 0, 0)
  else
    let lcg := (tank_vals.map (fun t => t.lcg * t.weight)).sum / weight
    let tcg := (tank_vals.map (fun t => t.tcg * t.weight)).sum / weight
    let vcg := (tank_vals.map (fun t => t.vcg * t.weight)).sum / weight
    let fsm := (tank_vals.map (fun t => t.fsm)).sum
    (weight, lcg, tcg, vcg, fsm)

example : get_fixed_weight [⟨1, 5, 0, 0⟩, ⟨-1, 3, 0, 0⟩] = (0, 2, 0, 0) := by
  norm_num [get_fixed_weight, pyRound, roundHalfEven]
example : get_tank_weight_totals [⟨0, 1, 5, 0, 0, 2⟩, ⟨0, -1, 3, 0, 0, 2⟩]
    = (0, 0, 0, 0, 0) := by norm_num [get_tank_weight_totals]

/-! ## Stability criteria (`criteria.py`) -/

/-- `scipy.integrate.trapezoid(y, x)`: trapezoidal integral of the
samples `y` against the sample points `x`. -/
noncomputable def trapezoid : List ℝ → List ℝ → ℝ
  | y1 :: y2 :: ys, x1 :: x2 :: xs =>
      (x2 - x1) * (y1 + y2) / 2 + trapezoid (y2 :: ys) (x2 :: xs)
  | _, _ => 0

/-- Index of the first element of `l` that is `≥ t`, if any. -/
noncomputable def findIdxGe (t : ℝ) : List ℝ → Option ℕ
  | [] => none
  | a :: as => if t ≤ a then some 0 else (findIdxGe t as).map (· + 1)

/-- `np.argmax(x >= t)` on a 1-D array: index of the first `True`, and 0
when every comparison is `False`. -/
noncomputable def argFirstGe (t : ℝ) (l : List ℝ) : ℕ :=
  (findIdxGe t l).getD 0

/-- `get_plot_area` (criteria.py lines 262-291).  `end_x? = none` models
the Python default `end_x=None`, replaced by `x_vals[-1]`.  The code
multiplies the trapezoidal integral by `π/180` twice and rounds the
result to 2 digits.  (`x_vals[-1]` on an empty list would raise in
Python; the claims only use non-empty curves, modelled by `getLastD 0`.) -/
noncomputable def get_plot_area (x_vals y_vals : List ℝ) (start_x : ℝ)
    (end_x? : Option ℝ) : ℝ :=
  let end_x := end_x?.getD (x_vals.getLastD 0)
  let start_index : ℤ := (argFirstGe start_x x_vals : ℤ)
  let end_index : ℤ :=
    if end_x ≤ x_vals.getLastD 0 then (argFirstGe end_x x_vals : ℤ) else -1
  if start_index ≥ (x_vals.length : ℤ) - 1 ∨ start_index ≥ end_index then 0
  else
    let s := start_index.toNat
    let e := end_index.toNat
    let area :=
      trapezoid ((y_vals.drop s).take (e + 1 - s)) ((x_vals.drop s).take (e + 1 - s))
        * (Real.pi / 180)
    let area_in_m_rad := area * Real.pi / 180
    pyRound area_in_m_rad 2

/-- One row of the `criteria_data` dict built by `get_criteria_data`. -/
structure CriteriaEntry where
  description : String
  required : ℝ
  unit : String
  type : String
  attained : ℝ
  status : String

/-- The `cr_1` block of `get_criteria_data` (criteria.py lines 49-67).
`limit_required` models `criteria_limits["cr_1"]["required"]` when the
criterion id is present in `criteria_limits`. -/
noncomputable def cr1_block (x y : List ℝ) (limit_required : Option ℝ) : CriteriaEntry :=
  let required := limit_required.getD 0.055
  let attained := get_plot_area x y 0 (some 30)
  { description := "Area under gz curve from 0° to 30°"
    required := required
    unit := "m rad"
    type := "stability criteria"
    attained := attained
    status := if attained ≥ required then "PASS" else "FAIL" }

/-- The `cr_2` block of `get_criteria_data` (criteria.py lines 69-87):
area under the GZ curve from 0° to 40°. -/
noncomputable def cr2_block (x y : List ℝ) (limit_required : Option ℝ) : CriteriaEntry :=
  let required := limit_required.getD 0.09
  let attained := get_plot_area x y 0 (some 40)
  { description := "Area under gz curve from 0° to 40°"
    required := required
    unit := "m rad"
    type := "stability criteria"
    attained := attained
    status := if attained ≥ required then "PASS" else "FAIL" }

/-- The `cr_3` block of `get_criteria_data` (criteria.py lines 89-107):
described as the area from 30° to 40°, but the code calls
`get_plot_area(x, y, 0, 40)`. -/
noncomputable def cr3_block (x y : List ℝ) (limit_required : Option ℝ) : CriteriaEntry :=
  let required := limit_required.getD 0.03
  let attained := get_plot_area x y 0 (some 40)
  { description := "Area under gz curve from 30° to 40°"
    required := required
    unit := "m rad"
    type := "stability criteria"
    attained := attained
    status := if attained ≥ required then "PASS" else "FAIL" }

/-- Root of the linear interpolant through `(x1, y1)` and `(x2, y2)`:
the value `brentq` converges to inside a bracket `[x1, x2]` of the
piecewise-linear `interp1d` curve when `y1·y2 < 0` (the interpolant is
affine on the bracket, so its root there is unique and exact). -/
def linRoot (x1 x2 y1 y2 : ℚ) : ℚ :=
  x1 - y1 * (x2 - x1) / (y2 - y1)

/-- The zero-crossing detection loop of `calculate_range_of_stability`
(criteria.py lines 399-408): one root per adjacent sample pair with
`y[i] * y[i+1] < 0`, in curve order. -/
def crossings : List ℚ → List ℚ → List ℚ
  | x1 :: x2 :: xs, y1 :: y2 :: ys =>
      if y1 * y2 < 0 then linRoot x1 x2 y1 y2 :: crossings (x2 :: xs) (y2 :: ys)
      else crossings (x2 :: xs) (y2 :: ys)
  | _, _ => []

/-- `calculate_range_of_stability` (criteria.py lines 382-430): classify
the GZ curve by its sign pattern and return
`(range_of_stability, angle_of_loll)`.  (`x[0]`/`x[-1]` on an empty
curve would raise in Python; modelled by `headI`/`getLastD 0`, all
claims use non-empty curves.) -/
def calculate_range_of_stability (x y : List ℚ) : ℚ × ℚ :=
  let roots := crossings x y
  let p :=
    if y.all (fun v => v ≤ 0) then ((0 : ℚ), (0 : ℚ))
    else if y.all (fun v => 0 ≤ v) then (x.headI, x.getLastD 0)
    else if 0 ≤ y.headI then (x.headI, roots.headD (x.getLastD 0))
    else (roots.headD 0, roots.getD 1 (x.getLastD 0))
  (p.2 - p.1, p.1)

example : crossings [0, 20, 40] [1, 1, -1] = [30] := by
  norm_num [crossings, linRoot]
example : calculate_range_of_stability [0, 20, 40] [1, 1, -1] = (30, 0) := by
  norm_num [calculate_range_of_stability, crossings, linRoot]

/-! ## Longitudinal strength: buoyancy correction (`ls_plot.py`) -/

/-- The correction step closing `get_buoyancy_distribution`
(ls_plot.py lines 150-151): scale every station of the uncorrected
buoyancy distribution by
`correction_factor = 1 + (ΣW − ΣB)/ΣB`. -/
def correct_buoyancy_distribution (weight_distribution buoyancy_distribution : List ℚ) :
    List ℚ :=
  let correction_factor :=
    1 + (weight_distribution.sum - buoyancy_distribution.sum) / buoyancy_distribution.sum
  buoyancy_distribution.map (fun bd => bd * correction_factor)

/-! ## Equilibrium solver (`helpers.py`, `optimize_trim`) -/

/-- `math.degrees`: radians to degrees. -/
noncomputable def degrees (x : ℝ) : ℝ := x * 180 / Real.pi

/-- The eight hydrostatic interpolators built in `optimize_trim`
(helpers.py lines 151-171): one `RegularGridInterpolator` per parameter
in `["draft","lcb","vcb","lcf","kml","kmt","mct","tpc"]`, each queried
at a `(trim, weight)` point. -/
structure HydroFuncs where
  draft : ℝ → ℝ → ℝ
  lcb : ℝ → ℝ → ℝ
  vcb : ℝ → ℝ → ℝ
  lcf : ℝ → ℝ → ℝ
  kml : ℝ → ℝ → ℝ
  kmt : ℝ → ℝ → ℝ
  mct : ℝ → ℝ → ℝ
  tpc : ℝ → ℝ → ℝ

/-- One hydrostatic interpolation pass (helpers.py lines 176-179 and
183-186): the dict `{param: param_val((trim_meter, weight)) ...}`. -/
structure HydroPass where
  draft : ℝ
  lcb : ℝ
  vcb : ℝ
  lcf : ℝ
  kml : ℝ
  kmt : ℝ
  mct : ℝ
  tpc : ℝ

/-- Evaluate every hydrostatic interpolator at `(trim_meter, weight)`. -/
def HydroFuncs.eval (hs : HydroFuncs) (trim_meter weight : ℝ) : HydroPass :=
  { draft := hs.draft trim_meter weight
    lcb := hs.lcb trim_meter weight
    vcb := hs.vcb trim_meter weight
    lcf := hs.lcf trim_meter weight
    kml := hs.kml trim_meter weight
    kmt := hs.kmt trim_meter weight
    mct := hs.mct trim_meter weight
    tpc := hs.tpc trim_meter weight }

/-- The floating-status dict returned by `optimize_trim`: the second
interpolation pass plus the seven derived keys added at
helpers.py lines 188-195. -/
structure FloatingStatus where
  hydro : HydroPass
  draft_aft : ℝ
  draft_fwd : ℝ
  trim : ℝ
  heel : ℝ
  gmt_solid : ℝ
  gmt_liquid : ℝ
  gml : ℝ

/-- `optimize_trim` (helpers.py lines 133-196): first interpolation pass
at `trim_meter = 0`, a single trim correction from the pass-1 LCB/MCT,
a second interpolation pass at the corrected trim, then the derived
outputs. -/
noncomputable def optimize_trim (hs : HydroFuncs) (weight lcg tcg vcg vcg_corr length : ℝ) :
    FloatingStatus :=
  let floating_status := hs.eval 0 weight
  let trim_meter := weight * (floating_status.lcb - lcg) / (floating_status.mct * 100)
  let floating_status := hs.eval trim_meter weight
  let trim_deg := degrees (Real.arctan (trim_meter / length))
  { hydro := floating_status
    draft_aft := floating_status.draft + trim_meter / 2
    draft_fwd := floating_status.draft - trim_meter / 2
    trim := trim_deg
    heel := degrees (Real.arctan (tcg / (floating_status.kmt - vcg_corr)))
    gmt_solid := floating_status.kmt - vcg
    gmt_liquid := floating_status.kmt - vcg_corr
    gml := floating_status.kml - vcg }

/-- Modelled from the spec (§4.3 Equilibrium Solver): evaluate the
hydrostatic parameters at trim = 0, compute the single trim correction
`trim_meters = weight·(LCB − LCG)/(MCT·100)` from that first pass,
re-evaluate all parameters at the corrected trim, and derive
`draft_aft/fwd = draft ± trim/2`, `trim = atan(trim_meters/length)` in
degrees, `heel = atan(TCG/(KMT − VCG_corrected))` in degrees,
`GMT_solid = KMT − VCG`, `GMT_liquid = KMT − VCG_corrected`,
`GML = KML − VCG`. -/
noncomputable def solveFloatingStatus (hs : HydroFuncs)
    (weight lcg tcg vcg vcg_corr length : ℝ) : FloatingStatus :=
  let pass1 := hs.eval 0 weight
  let trim_meters := weight * (pass1.lcb - lcg) / (pass1.mct * 100)
  let pass2 := hs.eval trim_meters weight
  { hydro := pass2
    draft_aft := pass2.draft + trim_meters / 2
    draft_fwd := pass2.draft - trim_meters / 2
    trim := degrees (Real.arctan (trim_meters / length))
    heel := degrees (Real.arctan (tcg / (pass2.kmt - vcg_corr)))
    gmt_solid := pass2.kmt - vcg
    gmt_liquid := pass2.kmt - vcg_corr
    gml := pass2.kml - vcg }

/-- `optimize_trim` under Python error semantics: every division raises
`ZeroDivisionError` when its denominator is 0 (the divisions by the
literal `2` and by `100` alone cannot raise); `none` models the raised
exception.  Divisions appear at helpers.py line 181 (`mct·100`),
line 188 (`/length`) and line 192 (`kmt − vcg_corr`). -/
noncomputable def optimize_trimE (hs : HydroFuncs) (weight lcg tcg vcg vcg_corr length : ℝ) :
    Option FloatingStatus :=
  let pass1 := hs.eval 0 weight
  if pass1.mct * 100 = 0 then none
  else
    let trim_meter := weight * (pass1.lcb - lcg) / (pass1.mct * 100)
    let pass2 := hs.eval trim_meter weight
    if length = 0 then none
    else if pass2.kmt - vcg_corr = 0 then none
    else some (optimize_trim hs weight lcg tcg vcg vcg_corr length)

/-- `HydroFuncs` whose interpolators are constant in trim and weight. -/
def constHydro (draft lcb vcb lcf kml kmt mct tpc : ℝ) : HydroFuncs :=
  ⟨fun _ _ => draft, fun _ _ => lcb, fun _ _ => vcb, fun _ _ => lcf,
   fun _ _ => kml, fun _ _ => kmt, fun _ _ => mct, fun _ _ => tpc⟩

/-! ## Crane lift & SWL calculator (`crane.py`) -/

/-- Result of `calculate_boom_angle`: either a numeric boom angle in
degrees or one of the discrete textual outcomes returned by the code:
`beyondCapacityAndRadius` = "Lift is beyond crane capacity and max radius!",
`beyondCapacity` = "Lift is beyond crane capacity!",
`beyondMaxRadius` = "Lift is beyond max radius!",
`insideMinimumOutreach` = "Cargo inside minimum outreach!". -/
inductive BoomAngleResult where
  | beyondCapacityAndRadius
  | beyondCapacity
  | beyondMaxRadius
  | insideMinimumOutreach
  | angle (deg : ℝ)

/-- Errors `calculate_boom_angle` can raise on the geometry line
`math.acos(required_outreach / boom_length)` (crane.py line 142):
`divisionByZero` when `boom_length = 0` (Python `ZeroDivisionError`),
`valueError` when the quotient lies outside `[-1, 1]` (the domain error
`math.acos` raises, e.g. whenever the outreach exceeds the boom
length). -/
inductive BoomAngleError where
  | divisionByZero
  | valueError
deriving DecidableEq

/-- `calculate_boom_angle` (crane.py lines 116-150) under Python error
semantics: three sequential early-return overload checks (these precede
the geometry, so they return even for degenerate geometry), then
`acos(required_outreach/boom_length)` — raising on a zero boom length
or an out-of-domain quotient — in degrees, with the 75° minimum
outreach check. -/
noncomputable def calculate_boom_angleE (boom_length required_outreach Ucl Ucr : ℝ) :
    Except BoomAngleError BoomAngleResult :=
  if Ucr > 1 ∧ Ucl > 1 then .ok .beyondCapacityAndRadius
  else if Ucl > 1 then .ok .beyondCapacity
  else if Ucr > 1 then .ok .beyondMaxRadius
  else if boom_length = 0 then .error .divisionByZero
  else
    let ratio := required_outreach / boom_length
    if ratio < -1 ∨ ratio > 1 then .error .valueError
    else
      let boom_angle := Real.arccos ratio
      let boom_angle_deg := degrees boom_angle
      if boom_angle_deg > 75 then .ok .insideMinimumOutreach
      else .ok (.angle boom_angle_deg)

/-- Modelled from the amended claim: discrete overload outcome in the
precedence order "both UCl > 1 and UCr > 1", then "UCl > 1 alone", then
"UCr > 1 alone"; otherwise the geometry is evaluated —
`ZeroDivisionError` when boomLength = 0, `ValueError` when
`outreach/boomLength` falls outside acos's domain `[-1, 1]` — and when
it is defined, the 75° check on `acos(outreach/boomLength)`, else the
numeric angle in degrees. -/
noncomputable def boomAngleSpecE (boomLength outreach UCl UCr : ℝ) :
    Except BoomAngleError BoomAngleResult :=
  if UCl > 1 ∧ UCr > 1 then .ok .beyondCapacityAndRadius
  else if UCl > 1 then .ok .beyondCapacity
  else if UCr > 1 then .ok .beyondMaxRadius
  else if boomLength = 0 then .error .divisionByZero
  else if outreach / boomLength < -1 ∨ outreach / boomLength > 1 then .error .valueError
  else if degrees (Real.arccos (outreach / boomLength)) > 75 then .ok .insideMinimumOutreach
  else .ok (.angle (degrees (Real.arccos (outreach / boomLength))))

/-- `calculate_slew_angle` (crane.py lines 69-113) under Python error
semantics: the division `dot_product / (magnitude_A * magnitude_B)` is
unguarded, so a zero denominator raises `ZeroDivisionError`, modelled by
`none`.  (`math.acos` cannot fault on the surviving inputs: by the
Cauchy-Schwarz inequality the cosine lies in `[-1, 1]` whenever the
denominator is non-zero.) -/
noncomputable def calculate_slew_angleE (x1 y1 x2 y2 x3 y3 : ℝ) : Option ℝ :=
  let vector_A_x := x2 - x1
  let vector_A_y := y2 - y1
  let vector_B_x := x3 - x1
  let vector_B_y := y3 - y1
  let dot_product := vector_A_x * vector_B_x + vector_A_y * vector_B_y
  let magnitude_A := Real.sqrt (vector_A_x ^ 2 + vector_A_y ^ 2)
  let magnitude_B := Real.sqrt (vector_B_x ^ 2 + vector_B_y ^ 2)
  if magnitude_A * magnitude_B = 0 then none
  else
    let cos_angle := dot_product / (magnitude_A * magnitude_B)
    let angle_radians := Real.arccos cos_angle
    let slew_angle := degrees angle_radians
    let cross_product := vector_A_x * vector_B_y - vector_A_y * vector_B_x
    some (if cross_product < 0 then 360 - slew_angle else slew_angle)

/-- A radius/SWL table: the two columns of the pandas DataFrame stored
under a `*.csv` key of the crane data. -/
structure SwlTable where
  radius : List ℚ
  swl : List ℚ
deriving DecidableEq

/-- `DataFrame.empty` (the stored tables have both columns of equal
length, so emptiness of the `Radius` column decides it). -/
def SwlTable.empty (t : SwlTable) : Bool := t.radius.isEmpty

/-- The dict `crane_data[boom][operation]`: csv-key → table, in
insertion order. -/
abbrev OperationSection := List (String × SwlTable)

/-- The dict `crane_data[boom]`: operation → operation section. -/
abbrev BoomSection := List (String × OperationSection)

/-- The nested dict `ship["Crane Data"]`: boom → boom section. -/
abbrev CraneData := List (String × BoomSection)

/-- The `boomdata` dict: `boomdata.get(key)` is `none` when the key is
absent (Python `None`). -/
structure BoomData where
  boom : Option String
  operation : Option String
  height : Option String

/-- Python falsiness of an optional string: `None` and `""` are falsy. -/
def isFalsy : Option String → Bool
  | none => true
  | some s => s == ""

/-- `get_swl_table` (crane.py lines 286-311): when any of the three
selectors is falsy, nested traversal returning the first table stored
under a key ending in `.csv`; otherwise exact lookup of
`crane_data[boom][operation][f"{height}.csv"]`, with `None` when any
level misses. -/
def get_swl_table (crane_data : CraneData) (boomdata : BoomData) : Option SwlTable :=
  if isFalsy boomdata.boom || isFalsy boomdata.operation || isFalsy boomdata.height then
    crane_data.findSome? fun bs =>
      bs.2.findSome? fun os =>
        os.2.findSome? fun kv =>
          if kv.1.endsWith ".csv" then some kv.2 else none
  else
    match boomdata.boom, boomdata.operation, boomdata.height with
    | some boom, some operation, some required_height =>
      (match crane_data.lookup boom with
       | some boom_section =>
         match boom_section.lookup operation with
         | some operation_section => operation_section.lookup (required_height ++ ".csv")
         | none => none
       | none => none)
    | _, _, _ => none

/-- Modelled from the spec: the "first available table found by nested
traversal" (first `.csv` entry of the first operation of the first boom
that has one), written as direct recursion over the nesting. -/
def firstTableInOperation : OperationSection → Option SwlTable
  | [] => none
  | (csv_key, swl_table) :: rest =>
    if csv_key.endsWith ".csv" then some swl_table else firstTableInOperation rest

/-- Modelled from the spec: nested traversal, middle level. -/
def firstTableInBoom : BoomSection → Option SwlTable
  | [] => none
  | (_, os) :: rest =>
    match firstTableInOperation os with
    | some t => some t
    | none => firstTableInBoom rest

/-- Modelled from the spec: nested traversal, outer level. -/
def firstAvailableTable : CraneData → Option SwlTable
  | [] => none
  | (_, bs) :: rest =>
    match firstTableInBoom bs with
    | some t => some t
    | none => firstAvailableTable rest

/-- Errors `calculate_required_swl` can raise: `unboundCurve` is the
`UnboundLocalError`/`NameError` on `crane_load_curve` when the passed
table was `None` (the line-199 `if` then never assigns the name),
`divisionByZero` a Python `ZeroDivisionError`, `emptySequence` the
`ValueError` of `max()`/`min()` on an empty list. -/
inductive CraneCalcError where
  | unboundCurve
  | divisionByZero
  | emptySequence
deriving DecidableEq

/-- The output dict of `calculate_required_swl` (crane.py lines 273-282). -/
structure RequiredSwl where
  SHLbe : ℚ
  SHLub : ℚ
  SWLreq : ℚ
  SWL : ℚ
  SWLcorr : ℚ
  UCl : ℚ
  Rm : ℚ
  UCr : ℚ
deriving DecidableEq

/-- The `# Calculate SWLreq` stage (crane.py lines 192-195). -/
def swlreq_calc (SHLub Mblock DAF DAFincl : ℚ) : Except CraneCalcError ℚ :=
  if DAF > DAFincl then
    if DAFincl = 0 then .error .divisionByZero
    else .ok (((SHLub + Mblock) * DAF) / DAFincl - Mblock)
  else .ok SHLub

/-- The `# Calculate SWL` stage (crane.py lines 203-231): `SWL` starts
at `0.00` and is only reassigned on the interpolation paths; when the
table is `None` and `Ra ≠ 0`, `crane_load_curve.empty` reads an unbound
local. -/
def swl_interp (required_swl_table : Option SwlTable) (Ra : ℚ) :
    Except CraneCalcError ℚ :=
  if Ra = 0 then .ok 0
  else
    match required_swl_table with
    | none => .error .unboundCurve
    | some curve =>
      if ¬ curve.empty then
        let radius_list := curve.radius
        let swl_list := curve.swl
        if Ra ∈ radius_list then .ok (swl_list.getD (radius_list.indexOf Ra) 0)
        else
          match radius_list.max? with
          | none => .error .emptySequence
          | some mx =>
            if Ra > mx then .ok (swl_list.getLastD 0)
            else
              match radius_list.min? with
              | none => .error .emptySequence
              | some mn =>
                if Ra < mn then .ok (swl_list.getD 0 0)
                else
                  let lower_indices :=
                    (List.range radius_list.length).filter
                      (fun i => radius_list.getD i 0 ≤ Ra)
                  let upper_indices :=
                    (List.range radius_list.length).filter
                      (fun i => Ra ≤ radius_list.getD i 0)
                  if lower_indices ≠ [] ∧ upper_indices ≠ [] then
                    let lower_idx := lower_indices.max?.getD 0
                    let upper_idx := upper_indices.min?.getD 0
                    if lower_idx ≠ upper_idx then
                      let Rup := radius_list.getD lower_idx 0
                      let Swlup := swl_list.getD lower_idx 0
                      let Rdown := radius_list.getD upper_idx 0
                      let SWldown := swl_list.getD upper_idx 0
                      if Rdown - Rup = 0 then .error .divisionByZero
                      else .ok (Swlup + (Ra - Rup) * (SWldown - Swlup) / (Rdown - Rup))
                    else .ok 0
                  else .ok 0
      else .ok 0

/-- The `# Calculate Rm` stage (crane.py lines 233-258): `Rm` starts at
`0.00`; a `None` table with `SWLreq ≠ 0` reads an unbound local. -/
def rm_interp (required_swl_table : Option SwlTable) (SWLreq : ℚ) :
    Except CraneCalcError ℚ :=
  if SWLreq = 0 then .ok 0
  else
    match required_swl_table with
    | none => .error .unboundCurve
    | some curve =>
      let swl_list := curve.swl
      let radius_list := curve.radius
      if SWLreq ∈ swl_list then .ok (radius_list.getD (swl_list.indexOf SWLreq) 0)
      else
        match swl_list.min? with
        | none => .error .emptySequence
        | some mn =>
          if SWLreq < mn then .ok (radius_list.getLastD 0)
          else
            match swl_list.max? with
            | none => .error .emptySequence
            | some mx =>
              if SWLreq > mx then .ok (radius_list.getD 0 0)
              else
                let lower_swl? := (swl_list.filter (fun s => s ≤ SWLreq)).max?
                let higher_swl? := (swl_list.filter (fun s => SWLreq ≤ s)).min?
                match lower_swl?, higher_swl? with
                | some lower_swl, some higher_swl =>
                  if lower_swl ≠ higher_swl then
                    let X1 := higher_swl
                    let X2 := lower_swl
                    let Y1 := radius_list.getD (swl_list.indexOf X1) 0
                    let Y2 := radius_list.getD (swl_list.indexOf X2) 0
                    if X2 - X1 = 0 then .error .divisionByZero
                    else .ok (Y1 + (SWLreq - X1) * ((Y2 - Y1) / (X2 - X1)))
                  else .ok 0
                | _, _ => .ok 0

/-- The `# Calculate SWLcorr` stage (crane.py lines 262-265). -/
def swlcorr_calc (SWL Mblock DAF DAFincl : ℚ) : Except CraneCalcError ℚ :=
  if DAF > DAFincl then
    if DAF = 0 then .error .divisionByZero
    else .ok (((SWL + Mblock) * DAFincl) / DAF - Mblock)
  else .ok SWL

/-- `calculate_required_swl` (crane.py lines 153-284) under Python error
semantics, assembled from its comment-delimited stages. -/
def calculate_required_swlE (required_swl_table : Option SwlTable)
    (required_outreach crane_weight Mrigging Mhook WCFrigging WCF DAF DAFincl Mblock : ℚ) :
    Except CraneCalcError RequiredSwl :=
  let Mnet := crane_weight
  let Mgross := crane_weight
  let Ra := required_outreach
  let SHLbe := Mnet + Mrigging + Mhook
  let SHLub := Mgross * WCF + Mrigging * WCFrigging + Mhook
  match swlreq_calc SHLub Mblock DAF DAFincl with
  | .error e => .error e
  | .ok SWLreq =>
    match swl_interp required_swl_table Ra with
    | .error e => .error e
    | .ok SWL =>
      match rm_interp required_swl_table SWLreq with
      | .error e => .error e
      | .ok Rm =>
        match swlcorr_calc SWL Mblock DAF DAFincl with
        | .error e => .error e
        | .ok SWLcorr =>
          let UCl := if SWLcorr ≠ 0 then SHLub / SWLcorr else 0
          let UCr := if Rm ≠ 0 then Ra / Rm else 0
          .ok { SHLbe := SHLbe, SHLub := SHLub, SWLreq := SWLreq, SWL := SWL,
                SWLcorr := SWLcorr, UCl := UCl, Rm := Rm, UCr := UCr }

/-- A concrete stored radius/SWL table (the spec's §8 example table). -/
def sampleTable : SwlTable := ⟨[10, 20, 30], [100, 80, 50]⟩

/-- A concrete crane-data store holding one boom, one operation and one
table under the key `"10.csv"`. -/
def sampleCraneData : CraneData := [("Main Boom", [("Harbour", [("10.csv", sampleTable)])])]

/-! ## Claim theorems -/

/-- C1: for every hydrostatic table and every total weight, LCG, TCG,
VCG, corrected VCG and vessel length, `optimize_trim` performs exactly
the two fixed interpolation passes — parameters at trim = 0, the single
trim correction `trim_meters = weight·(LCB − LCG)/(MCT·100)` from that
first pass, re-evaluation at the corrected trim — and returns
`draft_aft = draft + trim_meters/2`, `draft_fwd = draft − trim_meters/2`,
`trim = atan(trim_meters/length)` in degrees,
`heel = atan(TCG/(KMT − VCG_corrected))` in degrees,
`GMT_solid = KMT − VCG`, `GMT_liquid = KMT − VCG_corrected` and
`GML = KML − VCG`: it agrees everywhere with `solveFloatingStatus`, the
solver modelled verbatim from the spec's words. -/
theorem optimize_trim_eq_solveFloatingStatus (hs : HydroFuncs)
    (weight lcg tcg vcg vcg_corr length : ℝ) :
    optimize_trim hs weight lcg tcg vcg vcg_corr length =
      solveFloatingStatus hs weight lcg tcg vcg vcg_corr length := rfl

/-- C2 counterexample: two fixed weights `+1` and `−1` (zero total) with
LCGs 5 and 3 make `get_fixed_weight` return LCG = 2 — the undivided
moment sum — not the LCG = 0 the claim asserts for every zero-sum
input. -/
theorem get_fixed_weight_zero_sum_counterexample :
    get_fixed_weight [⟨1, 5, 0, 0⟩, ⟨-1, 3, 0, 0⟩] = (0, 2, 0, 0) ∧
      ((0 : ℚ), (2 : ℚ), (0 : ℚ), (0 : ℚ)) ≠ ((0 : ℚ), (0 : ℚ), (0 : ℚ), (0 : ℚ)) := by
  constructor
  · norm_num [get_fixed_weight, pyRound, roundHalfEven]
  · norm_num

/-- C2 amended: for every zero-sum set of weight items, tank aggregation
returns the explicit zero tuple `(0, 0, 0, 0, 0)` (never NaN, never an
error), while fixed-weight aggregation returns total weight 0 with
LCG/TCG/VCG equal to the raw moment sums `Σ weight·value` (the division
is skipped, so no NaN and no error — but the centres are 0 only when the
moments themselves cancel). -/
theorem zero_sum_aggregation (items : List FixedWeight) (tanks : List TankVal)
    (h1 : (items.map (fun fw => fw.weight)).sum = 0)
    (h2 : (tanks.map (fun t => t.weight)).sum = 0) :
    get_fixed_weight items =
      (0, (items.map (fun fw => fw.weight * fw.lcg)).sum,
          (items.map (fun fw => fw.weight * fw.tcg)).sum,
          (items.map (fun fw => fw.weight * fw.vcg)).sum) ∧
      get_tank_weight_totals tanks = (0, 0, 0, 0, 0) := by
  constructor
  · unfold get_fixed_weight
    rw [h1]
    norm_num [pyRound, roundHalfEven]
  · unfold get_tank_weight_totals
    rw [h2]
    norm_num

/-- C2 amended, witness: concrete zero-sum fixed weights (cancelling
`+1`/`−1`) and tanks evaluated through `zero_sum_aggregation`. -/
theorem zero_sum_aggregation_witness :
    get_fixed_weight [⟨1, 5, 0, 0⟩, ⟨-1, 3, 0, 0⟩] = (0, 2, 0, 0) ∧
      get_tank_weight_totals [⟨0, 1, 5, 0, 0, 2⟩, ⟨0, -1, 3, 0, 0, 2⟩] = (0, 0, 0, 0, 0) := by
  have h := zero_sum_aggregation [⟨1, 5, 0, 0⟩, ⟨-1, 3, 0, 0⟩]
    [⟨0, 1, 5, 0, 0, 2⟩, ⟨0, -1, 3, 0, 0, 2⟩] (by norm_num) (by norm_num)
  refine ⟨h.1.trans ?_, h.2⟩
  norm_num

/-- C3: for every GZ curve and every pair of per-criterion overrides,
the attained value of criterion 3 (described as the 30°–40° area) is
computed by `get_plot_area(x, y, 0, 40)` — the 0°–40° area — and hence
equals the attained value of criterion 2 on the same curve. -/
theorem cr3_attained_is_area_0_to_40 (x y : List ℝ) (l2 l3 : Option ℝ) :
    (cr3_block x y l3).attained = get_plot_area x y 0 (some 40) ∧
      (cr3_block x y l3).attained = (cr2_block x y l2).attained :=
  ⟨rfl, rfl⟩

/-- C5 counterexample: with neither utilization exceeding 1, the claim
demands a numeric angle (or the minimum-outreach outcome), but at boom
length 1 and outreach 2 the program raises `ValueError`
(`math.acos(2)` is out of domain), and at boom length 0 it raises
`ZeroDivisionError` — no discrete outcome and no angle is returned. -/
theorem calculate_boom_angle_raises_counterexample :
    calculate_boom_angleE 1 2 0.5 0.5 = .error BoomAngleError.valueError ∧
      calculate_boom_angleE 0 0 0.5 0.5 = .error BoomAngleError.divisionByZero := by
  constructor <;> norm_num [calculate_boom_angleE]

/-- C5 amended: for every boom length, required outreach and
utilization pair, the result is selected in the claimed precedence
order — both ratios > 1, then UCl > 1 alone, then UCr > 1 alone (these
three precede the geometry and are returned even for degenerate
geometry) — and otherwise the geometry is evaluated, raising
`ZeroDivisionError` when the boom length is 0 and `ValueError` when
`outreach/boomLength` lies outside `[-1, 1]`; when it is defined, the
75° minimum-outreach check applies, else the numeric boom angle in
degrees is returned: `calculate_boom_angleE` agrees everywhere with
`boomAngleSpecE`, modelled from this wording. -/
theorem calculate_boom_angle_precedence (boom_length required_outreach Ucl Ucr : ℝ) :
    calculate_boom_angleE boom_length required_outreach Ucl Ucr =
      boomAngleSpecE boom_length required_outreach Ucl Ucr := by
  unfold calculate_boom_angleE boomAngleSpecE
  by_cases h1 : Ucl > 1 <;> by_cases h2 : Ucr > 1 <;> simp [h1, h2]

/-- Sum of a list uniformly rescaled by a constant factor. -/
theorem list_sum_map_mul_const (l : List ℚ) (c : ℚ) :
    (l.map (fun b => b * c)).sum = l.sum * c := by
  induction l with
  | nil => simp
  | cons a as ih => simp [ih, add_mul]

/-- C7: for every weight distribution and every uncorrected buoyancy
distribution with non-zero station-sum, the corrected buoyancy
distribution (each station scaled by
`correction = 1 + (ΣW − ΣB)/ΣB`) has station-sum exactly `ΣW`. -/
theorem corrected_buoyancy_sum (weight_distribution buoyancy_distribution : List ℚ)
    (h : buoyancy_distribution.sum ≠ 0) :
    (correct_buoyancy_distribution weight_distribution buoyancy_distribution).sum =
      weight_distribution.sum := by
  unfold correct_buoyancy_distribution
  rw [list_sum_map_mul_const]
  field_simp

/-- C7 witness: stations `[1, 3]` of weight against uncorrected
buoyancy `[1, 1]` (`ΣB = 2 ≠ 0`), evaluated through
`corrected_buoyancy_sum`. -/
theorem corrected_buoyancy_sum_witness :
    ((2 : ℚ) ≠ 0) ∧ (correct_buoyancy_distribution [1, 3] [1, 1]).sum = ([1, 3] : List ℚ).sum :=
  ⟨by norm_num, corrected_buoyancy_sum [1, 3] [1, 1] (by norm_num)⟩

/-- C8: the divisions of `optimize_trim` are unguarded and both faults
are reachable: a hydrostatic table whose MCT interpolates to 0 makes the
trim correction divide by zero, and one with `KMT = VCG_corrected`
(here KMT = 8 = vcg_corr, with MCT = 2 so the trim division is fine)
makes the heel formula divide by zero; in both cases the error-aware
solver returns no `FloatingStatus`. -/
theorem optimize_trim_division_faults :
    optimize_trimE (constHydro 5 10 3 1 100 8 0 20) 1000 12 0 4 4 100 = none ∧
      optimize_trimE (constHydro 5 10 3 1 100 8 2 20) 1000 12 0 4 8 100 = none := by
  constructor
  · simp [optimize_trimE, constHydro, HydroFuncs.eval]
  · norm_num [optimize_trimE, constHydro, HydroFuncs.eval]

/-- C10: the slew-angle division by `magnitude_A * magnitude_B` is
unguarded: whenever the cargo's (LCG, TCG) coincides with the pedestal
base point (or the boom tip does), the denominator is 0 and the
computation faults with a division by zero instead of producing an
angle. -/
theorem calculate_slew_angle_div_by_zero (x1 y1 x2 y2 x3 y3 : ℝ)
    (h : (x3 = x1 ∧ y3 = y1) ∨ (x2 = x1 ∧ y2 = y1)) :
    calculate_slew_angleE x1 y1 x2 y2 x3 y3 = none := by
  unfold calculate_slew_angleE
  rcases h with ⟨hx, hy⟩ | ⟨hx, hy⟩ <;> subst hx <;> subst hy <;>
    norm_num [Real.sqrt_zero]

/-- C10 witness: cargo at the pedestal base point (1, 2), boom tip at
(5, 6), discharged through `calculate_slew_angle_div_by_zero`. -/
theorem calculate_slew_angle_div_by_zero_witness :
    calculate_slew_angleE 1 2 5 6 1 2 = none :=
  calculate_slew_angle_div_by_zero 1 2 5 6 1 2 (Or.inl ⟨rfl, rfl⟩)

/-- A detected zero-crossing forces a strictly negative sample: each
crossing comes from an adjacent pair with `y[i]·y[i+1] < 0`. -/
theorem exists_neg_of_crossings_ne_nil (x y : List ℚ) (h : crossings x y ≠ []) :
    ∃ v ∈ y, v < 0 := by
  induction x generalizing y with
  | nil => simp [crossings] at h
  | cons x1 xs ih =>
    match xs, y with
    | [], _ => simp [crossings] at h
    | x2 :: xs', [] => simp [crossings] at h
    | x2 :: xs', [y1] => simp [crossings] at h
    | x2 :: xs', y1 :: y2 :: ys =>
      by_cases hc : y1 * y2 < 0
      · rcases mul_neg_iff.mp hc with ⟨_, h2⟩ | ⟨h1, _⟩
        · exact ⟨y2, by simp, h2⟩
        · exact ⟨y1, by simp, h1⟩
      · have h' : crossings (x2 :: xs') (y2 :: ys) ≠ [] := by
          simpa [crossings, hc] using h
        rcases ih (y2 :: ys) h' with ⟨v, hv, hneg⟩
        exact ⟨v, List.mem_cons_of_mem _ hv, hneg⟩

/-- C6: on a GZ curve sampled from 0° whose righting arm is positive at
0° and whose sign flips exactly once between adjacent samples (the
algorithm's notion of a single zero-crossing, `y[i]·y[i+1] < 0`; the
claim's curve, positive at 0° and negative by 40°, is of this shape),
`calculate_range_of_stability` returns angle of loll 0° and a range of
stability equal to the single crossing angle. -/
theorem range_of_stability_single_crossing (x y : List ℚ) (r : ℚ)
    (hx : x.headI = 0) (hy : 0 < y.headI) (hc : crossings x y = [r]) :
    calculate_range_of_stability x y = (r, 0) := by
  have hyne : y ≠ [] := by
    intro hnil
    have hnilI : ([] : List ℚ).headI = 0 := rfl
    rw [hnil, hnilI] at hy
    exact lt_irrefl 0 hy
  obtain ⟨y1, ytl, rfl⟩ := List.exists_cons_of_ne_nil hyne
  have hy1 : 0 < y1 := by simpa using hy
  have hneg : ∃ v ∈ y1 :: ytl, v < 0 :=
    exists_neg_of_crossings_ne_nil x _ (by simp [hc])
  have hall_le : ¬ (y1 :: ytl).all (fun v => v ≤ 0) = true := by
    simp only [List.all_eq_true]
    intro hall
    have := hall y1 (by simp)
    simp at this
    exact absurd hy1 (not_lt.mpr this)
  have hall_ge : ¬ (y1 :: ytl).all (fun v => 0 ≤ v) = true := by
    simp only [List.all_eq_true]
    intro hall
    rcases hneg with ⟨v, hv, hvneg⟩
    have := hall v hv
    simp at this
    exact absurd hvneg (not_lt.mpr this)
  unfold calculate_range_of_stability
  simp [hall_le, hall_ge, hy1.le, hc, hx]

/-- C6 witness: the curve `x = [0°, 20°, 40°]`, `y = [1, 1, −1]` crosses
once at 30° (linear root of the last bracket); the solver returns range
30°, loll 0°, through `range_of_stability_single_crossing`. -/
theorem range_of_stability_single_crossing_witness :
    calculate_range_of_stability [0, 20, 40] [1, 1, -1] = (30, 0) :=
  range_of_stability_single_crossing [0, 20, 40] [1, 1, -1] 30 rfl (by norm_num)
    (by norm_num [crossings, linRoot])

/-- Evaluation of `get_plot_area` on the claim C4 curve: start index 0,
end index 3, trapezoidal integral over all four samples, then the two
`π/180` factors and the 2-digit rounding. -/
theorem get_plot_area_gz_eval :
    get_plot_area [0, 10, 20, 30] [0, 0.1, 0.18, 0.2] 0 (some 30) =
      pyRound (3.8 * (Real.pi / 180) * Real.pi / 180) 2 := by
  unfold get_plot_area
  norm_num [argFirstGe, findIdxGe, trapezoid]

/-- The doubly-converted area of the claim C4 curve,
`3.8·(π/180)² ≈ 0.00116`, rounds to 0 at 2 digits. -/
theorem pyRound_gz_area_zero : pyRound (3.8 * (Real.pi / 180) * Real.pi / 180) 2 = 0 := by
  have hπu : Real.pi < 3.15 := Real.pi_lt_d2
  have hπl : 3 < Real.pi := Real.pi_gt_three
  have hval0 : (0 : ℝ) ≤ 3.8 * (Real.pi / 180) * Real.pi / 180 * 10 ^ 2 := by positivity
  have hval1 : 3.8 * (Real.pi / 180) * Real.pi / 180 * 10 ^ 2 < 1 / 2 := by nlinarith
  have hfloor : ⌊3.8 * (Real.pi / 180) * Real.pi / 180 * 10 ^ 2⌋ = 0 :=
    Int.floor_eq_zero_iff.mpr ⟨hval0, by linarith⟩
  unfold pyRound roundHalfEven
  rw [hfloor]
  rw [if_pos (by push_cast; linarith)]
  norm_num

/-- Trapezoidal integral of the claim C4 curve: 3.8 m·deg. -/
theorem trapezoid_gz_eval :
    trapezoid [0, 0.1, 0.18, 0.2] [0, 10, 20, 30] = 3.8 := by
  norm_num [trapezoid]

/-- C4 counterexample: on the curve `{0:0, 10:0.1, 20:0.18, 30:0.2}`
with required 0.055, the attained value of criterion 1 is NOT the
doubly-converted trapezoidal area (`3.8·(π/180)² ≈ 0.00116`, and
certainly not the spec's ≈ 0.025): the code rounds it to two digits,
collapsing it to exactly 0. -/
theorem cr1_attained_counterexample :
    (cr1_block [0, 10, 20, 30] [0, 0.1, 0.18, 0.2] (some 0.055)).attained ≠
      trapezoid [0, 0.1, 0.18, 0.2] [0, 10, 20, 30] * (Real.pi / 180) * (Real.pi / 180) := by
  have ha : (cr1_block [0, 10, 20, 30] [0, 0.1, 0.18, 0.2] (some 0.055)).attained = 0 := by
    show get_plot_area [0, 10, 20, 30] [0, 0.1, 0.18, 0.2] 0 (some 30) = 0
    rw [get_plot_area_gz_eval, pyRound_gz_area_zero]
  rw [ha, trapezoid_gz_eval]
  have hπl : 3 < Real.pi := Real.pi_gt_three
  intro h
  nlinarith

/-- C4 amended: criterion 1 on the curve `{0:0, 10:0.1, 20:0.18, 30:0.2}`
with required 0.055 attains `round(T·(π/180)², 2)` where `T = 3.8 m·deg`
is the trapezoidal area over 0°–30°; the double angle conversion plus
the 2-digit rounding make the attained value exactly 0 (not ≈ 0.025),
and the status is FAIL. -/
theorem cr1_attained_rounds_to_zero_and_fails :
    (cr1_block [0, 10, 20, 30] [0, 0.1, 0.18, 0.2] (some 0.055)).attained =
        pyRound (trapezoid [0, 0.1, 0.18, 0.2] [0, 10, 20, 30] * (Real.pi / 180) * Real.pi / 180) 2 ∧
      (cr1_block [0, 10, 20, 30] [0, 0.1, 0.18, 0.2] (some 0.055)).attained = 0 ∧
      (cr1_block [0, 10, 20, 30] [0, 0.1, 0.18, 0.2] (some 0.055)).status = "FAIL" := by
  have ha : (cr1_block [0, 10, 20, 30] [0, 0.1, 0.18, 0.2] (some 0.055)).attained = 0 := by
    show get_plot_area [0, 10, 20, 30] [0, 0.1, 0.18, 0.2] 0 (some 30) = 0
    rw [get_plot_area_gz_eval, pyRound_gz_area_zero]
  refine ⟨?_, ha, ?_⟩
  · rw [ha, trapezoid_gz_eval, pyRound_gz_area_zero]
  · show (if get_plot_area [0, 10, 20, 30] [0, 0.1, 0.18, 0.2] 0 (some 30) ≥ (0.055 : ℝ)
        then "PASS" else "FAIL") = "FAIL"
    rw [get_plot_area_gz_eval, pyRound_gz_area_zero]
    norm_num

/-- The inner `.csv` scan of the fallback traversal agrees with the
spec-modelled recursion. -/
theorem findSome?_eq_firstTableInOperation (os : OperationSection) :
    (os.findSome? fun kv => if kv.1.endsWith ".csv" then some kv.2 else none) =
      firstTableInOperation os := by
  induction os with
  | nil => rfl
  | cons kv rest ih =>
    obtain ⟨k, t⟩ := kv
    by_cases h : k.endsWith ".csv"
    · simp [List.findSome?_cons, firstTableInOperation, h]
    · simp [List.findSome?_cons, firstTableInOperation, h, ih]

/-- Middle level of the fallback traversal. -/
theorem findSome?_eq_firstTableInBoom (bs : BoomSection) :
    (bs.findSome? fun os =>
        os.2.findSome? fun kv => if kv.1.endsWith ".csv" then some kv.2 else none) =
      firstTableInBoom bs := by
  induction bs with
  | nil => rfl
  | cons os rest ih =>
    obtain ⟨op, sec⟩ := os
    rw [List.findSome?_cons]
    unfold firstTableInBoom
    rw [findSome?_eq_firstTableInOperation]
    cases firstTableInOperation sec with
    | none => exact ih
    | some t => rfl

/-- C9 counterexample: with all three selectors supplied (boom
"Other Boom") but no matching stored table, `get_swl_table` resolves no
table at all — the fallback traversal only runs when a selector is
missing — and `calculate_required_swl` then faults on the unbound
`crane_load_curve` local (modelled `CraneCalcError.unboundCurve`) at any
non-zero outreach, instead of returning a populated SWL result. -/
theorem get_swl_table_no_match_counterexample :
    get_swl_table sampleCraneData ⟨some "Other Boom", some "Harbour", some "10"⟩ = none ∧
      calculate_required_swlE none 1 1 0 0 1 1 1 1 0 =
        .error CraneCalcError.unboundCurve := by
  constructor
  · simp [get_swl_table, sampleCraneData, isFalsy, List.lookup]
  · have h1 : swlreq_calc 1 0 1 1 = .ok 1 := by
      norm_num [swlreq_calc]
    have h2 : swl_interp none 1 = .error CraneCalcError.unboundCurve := by
      norm_num [swl_interp]
    simp [calculate_required_swlE, h1, h2]

/-- C9 amended: when any of the three selectors (boom, operation,
height) is missing, the crane lookup does fall back to the first
available table found by nested traversal; but when all three are
supplied and match no stored table, the lookup yields no table, and the
SWL calculation then fails on the unbound load-curve local at non-zero
outreach instead of returning a populated result. -/
theorem get_swl_table_fallback (crane_data : CraneData) (boomdata : BoomData)
    (h : (isFalsy boomdata.boom || isFalsy boomdata.operation ||
        isFalsy boomdata.height) = true) :
    get_swl_table crane_data boomdata = firstAvailableTable crane_data ∧
      calculate_required_swlE none 2 1 0 0 1 1 1 1 0 =
        .error CraneCalcError.unboundCurve := by
  constructor
  · unfold get_swl_table
    rw [if_pos h]
    induction crane_data with
    | nil => rfl
    | cons b rest ih =>
      obtain ⟨bk, bs⟩ := b
      rw [List.findSome?_cons]
      unfold firstAvailableTable
      rw [findSome?_eq_firstTableInBoom]
      cases firstTableInBoom bs with
      | none => exact ih
      | some t => rfl
  · have h1 : swlreq_calc 1 0 1 1 = .ok 1 := by
      norm_num [swlreq_calc]
    have h2 : swl_interp none 2 = .error CraneCalcError.unboundCurve := by
      norm_num [swl_interp]
    simp [calculate_required_swlE, h1, h2]

/-- C9 amended, witness: with no selector supplied the lookup over the
concrete store resolves, via `get_swl_table_fallback`, to the traversal's
first table. -/
theorem get_swl_table_fallback_witness :
    get_swl_table sampleCraneData ⟨none, none, none⟩ = firstAvailableTable sampleCraneData ∧
      calculate_required_swlE none 2 1 0 0 1 1 1 1 0 =
        .error CraneCalcError.unboundCurve :=
  get_swl_table_fallback sampleCraneData ⟨none, none, none⟩ rfl
